import Mathlib

/-!
Shallow embedding of the chess rules-and-search engine
(`src/core/*.py`, `src/pieces/*.py`, `src/ai/*.py`) and proofs about the
claims of its specification.

Modelling conventions:
* Python objects are modelled by value records; object identity is modelled
  by a numeric `id` field (`Piece` has no `__eq__`, so Python compares pieces
  by identity).
* A Python `Square` is identified by its coordinates (`__eq__`/`__hash__`
  compare `(row, col)` only); its mutable `piece` occupancy slot lives in the
  `Board` record (`occ`), and the `Piece.square` back-reference lives in the
  piece record (`squareRef`).
* Code that raises at runtime is embedded in `Except PyErr`; the constructors
  of `PyErr` name the Python exception that the traced line raises.
* Members that are referenced by the sources but defined nowhere under the
  repository sources are modelled from the specification text; each such
  definition carries a doc comment starting with `Modelled from the spec:`.
-/

namespace OopChess

/-- Embeds the `PieceColor` enum of src/pieces/piece.py. -/
inductive PieceColor
  | white
  | black
deriving DecidableEq

/-- Embeds `PieceColor.opposite` (src/pieces/piece.py lines 18-21). -/
def PieceColor.opposite : PieceColor → PieceColor
  | .white => .black
  | .black => .white

/-- Embeds `PieceColor.value` ("white" / "black"). -/
def PieceColor.value : PieceColor → String
  | .white => "white"
  | .black => "black"

/-- Embeds the `PieceType` enum of src/pieces/piece.py. -/
inductive PieceType
  | pawn
  | knight
  | bishop
  | rook
  | queen
  | king
deriving DecidableEq

/-- Python class name of the piece variant, as used by each variant's
`__str__` (for example `"white Rook at h1"`). -/
def PieceType.className : PieceType → String
  | .pawn => "Pawn"
  | .knight => "Knight"
  | .bishop => "Bishop"
  | .rook => "Rook"
  | .queen => "Queen"
  | .king => "King"

/-- Runtime exceptions raised by the embedded Python code. `diverge` marks a
loop of the source that does not terminate on the given input. -/
inductive PyErr
  | typeError (msg : String)
  | valueError (msg : String)
  | attributeError (msg : String)
  | diverge
deriving DecidableEq

/-- The TypeError raised by every `Move(...)` call in src/core/game_rule.py
(lines 99, 283, 310, 316, 340, 350): the `Move` dataclass
(src/core/move.py) requires the positional field `moving_piece`, and those
call sites omit it. -/
def moveInitMissingPiece : PyErr :=
  .typeError ("Move.__init__ missing required positional argument moving_piece")

/-- Coordinates of a board square. `Square.__eq__`/`__hash__`
(src/core/square.py) compare `(row, col)` only, so coordinates are the
identity of a square. -/
structure Coord where
  row : Int
  col : Int
deriving DecidableEq

/-- Embeds `Square.algebraic` (src/core/square.py): `(0,0) -> "a8"`,
`(7,7) -> "h1"`. -/
def Coord.algebraic (c : Coord) : String :=
  String.singleton (Char.ofNat (97 + c.col.toNat)) ++ toString (8 - c.row)

/-- The mutable state of one `Piece` object (src/pieces/piece.py plus the
per-variant fields): identity, color, variant tag, `has_moved`, the pawn's
`_can_be_captured_en_passant` flag (src/pieces/pawn.py line 33) and the
`square` back-reference (detached = `none`). -/
structure Piece where
  id : Nat
  color : PieceColor
  ptype : PieceType
  hasMoved : Bool
  canBeCapturedEnPassant : Bool
  squareRef : Option Coord
deriving DecidableEq

/-- Embeds each variant's `__str__`
(for example src/pieces/rook.py lines 141-143):
`f"{self.color.value} Rook at {self.square.algebraic}"`. A piece printed by
`Board.__str__` always occupies a square; a detached piece is rendered with
a `"None"` placeholder square. -/
def Piece.str (p : Piece) : String :=
  p.color.value ++ " " ++ p.ptype.className ++ " at " ++
    (match p.squareRef with
     | some c => c.algebraic
     | none => "None")

/-- Embeds a `Move` value (src/core/move.py): squares are stored by
coordinate identity and pieces by object identity. `movingPiece` is an
`Option` because Python admits `moving_piece=None` (the constructor only
compares it against the start square's occupant). -/
structure Move where
  startSquare : Coord
  endSquare : Coord
  movingPiece : Option Nat
  capturedPiece : Option Nat
  isCastle : Bool
  isPromotion : Bool
  isEnPassant : Bool
  promotionPieceType : Option PieceType
deriving DecidableEq

/-- Embeds `Move.is_capture` (src/core/move.py lines 57-60). -/
def Move.is_capture (m : Move) : Bool :=
  m.capturedPiece.isSome || m.isEnPassant

/-- Embeds the `Board` object state (src/core/board.py): the occupancy of
the 8x8 grid (`occ`, the `Square.piece` slots), the arena of piece objects
(`pieces`), the two per-color live sets and the captured list.

Field `lastMove` — Modelled from the spec: `GameRules.is_valid_en_passant` reads
`self._board.last_move` (src/core/game_rule.py line 184) but `Board` defines
no such attribute; §4.2 says the two-square advance is "checked against
GameState's last move", so the model mirrors the last move applied to the
board. -/
structure Board where
  occ : List (Coord × Nat)
  pieces : List Piece
  whitePieces : List Nat
  blackPieces : List Nat
  capturedPieces : List Nat
  lastMove : Option Move
deriving DecidableEq

/-- Occupant (by piece id) of the square at coordinates `c`: the
`Square.piece` slot. -/
def Board.squarePiece (b : Board) (c : Coord) : Option Nat :=
  (b.occ.find? (fun e => e.1 == c)).map (·.2)

/-- Resolves a piece id to the piece object in the arena. -/
def Board.getPiece (b : Board) (pid : Nat) : Option Piece :=
  b.pieces.find? (fun p => p.id == pid)

/-- Embeds `Square.is_occupied` (src/core/square.py). -/
def Board.isOccupiedAt (b : Board) (c : Coord) : Bool :=
  (b.squarePiece c).isSome

/-- Embeds `Board.is_valid_position` (src/core/board.py lines 137-146). -/
def Board.is_valid_position (row col : Int) : Bool :=
  decide (0 ≤ row) && decide (row < 8) && decide (0 ≤ col) && decide (col < 8)

/-- Embeds `Board.get_square` (src/core/board.py lines 41-52): the square
object at `(row, col)`, or `None` when out of bounds. -/
def Board.get_square (row col : Int) : Option Coord :=
  if Board.is_valid_position row col then some ⟨row, col⟩ else none

/-- The ids of `self._pieces[color]` (the per-color live set). -/
def Board.colorIds (b : Board) (c : PieceColor) : List Nat :=
  match c with
  | .white => b.whitePieces
  | .black => b.blackPieces

/-- Embeds `Board.get_pieces` (src/core/board.py lines 54-62), resolving the
live set of a color to piece objects. -/
def Board.get_pieces (b : Board) (c : PieceColor) : List Piece :=
  (b.colorIds c).filterMap b.getPiece

/-- Updates the `Square.piece` slot at `c`. -/
def Board.setOcc (b : Board) (c : Coord) (v : Option Nat) : Board :=
  { b with occ :=
      match v with
      | some pid => (c, pid) :: b.occ.filter (fun e => !(e.1 == c))
      | none => b.occ.filter (fun e => !(e.1 == c)) }

/-- Replaces the piece object with id `p.id` in the arena (inserting it if
absent, mirroring that the Python object already exists on the heap). -/
def Board.setPiece (b : Board) (p : Piece) : Board :=
  if b.pieces.any (fun q => q.id == p.id) then
    { b with pieces := b.pieces.map (fun q => if q.id == p.id then p else q) }
  else
    { b with pieces := b.pieces ++ [p] }

/-- Updates one piece's `square` back-reference. -/
def Board.setPieceSquare (b : Board) (pid : Nat) (sq : Option Coord) : Board :=
  { b with pieces := b.pieces.map (fun q => if q.id == pid then { q with squareRef := sq } else q) }

/-- Adds a piece id to a color's live set (`set.add`: idempotent). -/
def Board.addToColorSet (b : Board) (c : PieceColor) (pid : Nat) : Board :=
  match c with
  | .white =>
      if pid ∈ b.whitePieces then b
      else { b with whitePieces := b.whitePieces ++ [pid] }
  | .black =>
      if pid ∈ b.blackPieces then b
      else { b with blackPieces := b.blackPieces ++ [pid] }

/-- Removes a piece id from a color's live set. -/
def Board.removeFromColorSet (b : Board) (c : PieceColor) (pid : Nat) : Board :=
  match c with
  | .white => { b with whitePieces := b.whitePieces.filter (fun q => !(q == pid)) }
  | .black => { b with blackPieces := b.blackPieces.filter (fun q => !(q == pid)) }

/-- Embeds `Board.place_piece` (src/core/board.py lines 72-87): on an
occupied square return `False` unchanged; otherwise set the square's
occupant (the `Square.piece` setter also rewrites the piece's `square`
back-reference), set `piece.square`, and add the piece to its color's live
set. -/
def Board.place_piece (b : Board) (p : Piece) (sq : Coord) : Bool × Board :=
  if b.isOccupiedAt sq then (false, b)
  else
    let b1 := b.setOcc sq (some p.id)
    let b2 := b1.setPiece { p with squareRef := some sq }
    let b3 := b2.addToColorSet p.color p.id
    (true, b3)

/-- Embeds `Board.__str__` (src/core/board.py lines 160-169): eight rows of
space-separated cells, each `str(piece)` or `"."`, joined by newlines. -/
def Board.str (b : Board) : String :=
  String.intercalate ("\n")
    ((List.range 8).map (fun r =>
      String.intercalate (" ")
        ((List.range 8).map (fun c =>
          match (b.squarePiece ⟨r, c⟩).bind b.getPiece with
          | some p => p.str
          | none => "."))))

/-- Embeds `Move.__init__` together with `Move._validate_move`
(src/core/move.py lines 35-55): raises `ValueError` when the moving piece is
not the start square's occupant, when start equals end, or when a promotion
move carries no promotion piece type; otherwise the move is stored exactly
as given. The board argument supplies the occupancy that
`self.start_square.piece` reads at construction time. -/
def Move.create (b : Board) (startSq endSq : Coord) (movingPiece : Option Nat)
    (capturedPiece : Option Nat) (isCastle isPromotion isEnPassant : Bool)
    (promotionPieceType : Option PieceType) : Except PyErr Move :=
  if movingPiece ≠ b.squarePiece startSq then
    .error (.valueError ("Start square must contain the moving piece"))
  else if startSq = endSq then
    .error (.valueError ("Start and end squares must be different"))
  else if isPromotion ∧ promotionPieceType = none then
    .error (.valueError ("Promotion moves must specify the promotion piece type"))
  else
    .ok ⟨startSq, endSq, movingPiece, capturedPiece, isCastle, isPromotion,
         isEnPassant, promotionPieceType⟩

/-- Modelled from the spec: `piece.get_move_directions()` is called by
`GameRules.get_legal_moves` (src/core/game_rule.py line 86) but defined
nowhere under the sources. §4.1 fixes each variant's direction/offset set;
for King/Queen/Rook/Bishop/Knight these match the `_directions` /
`_move_offsets` attributes of src/pieces/*.py, and the pawn's directions are
its forward step and the two diagonal captures (§4.1, sign from
`Pawn.direction`). -/
def Piece.get_move_directions (p : Piece) : List (Int × Int) :=
  match p.ptype with
  | .king => [(-1, -1), (-1, 0), (-1, 1), (0, -1), (0, 1), (1, -1), (1, 0), (1, 1)]
  | .queen => [(-1, 0), (1, 0), (0, -1), (0, 1), (-1, -1), (-1, 1), (1, -1), (1, 1)]
  | .rook => [(-1, 0), (1, 0), (0, -1), (0, 1)]
  | .bishop => [(-1, -1), (-1, 1), (1, -1), (1, 1)]
  | .knight => [(-2, -1), (-2, 1), (-1, -2), (-1, 2), (1, -2), (1, 2), (2, -1), (2, 1)]
  | .pawn =>
      let d : Int := if p.color = .white then -1 else 1
      [(d, 0), (d, -1), (d, 1)]

/-- Modelled from the spec: `piece.can_move_multiple_steps()` is called by
`GameRules.get_legal_moves` (src/core/game_rule.py line 90) but defined
nowhere under the sources; §4.1/§4.2 distinguish the sliding pieces
(Bishop, Rook, Queen) from single-step and jump pieces. -/
def Piece.can_move_multiple_steps (p : Piece) : Bool :=
  match p.ptype with
  | .bishop | .rook | .queen => true
  | _ => false

/-- Embeds `GameRules._is_valid_position` (src/core/game_rule.py lines
228-230). -/
def GameRules.is_valid_position (c : Coord) : Bool :=
  decide (0 ≤ c.row) && decide (c.row < 8) && decide (0 ≤ c.col) && decide (c.col < 8)

/-- Loop of `GameRules._get_path_squares` (src/core/game_rule.py lines
374-382): starting one step after the start square, collect squares until
the walk reaches the end coordinates. Entries are `Board.get_square`
results, so an off-board step contributes `none`. The walk is only invoked
by `is_valid_move` after both squares passed the 0-7 bounds check, and on
such inputs the Python loop either stops within seven iterations or runs
forever (when the two squares are neither aligned straight nor diagonally);
fuel 16 therefore separates exactly the terminating runs from `diverge`. -/
def GameRules.pathWalk (er ec rs cs : Int) : Nat → Int → Int → Except PyErr (List (Option Coord))
  | 0, _, _ => .error .diverge
  | fuel + 1, r, c =>
    if r = er ∧ c = ec then .ok []
    else
      match GameRules.pathWalk er ec rs cs fuel (r + rs) (c + cs) with
      | .error e => .error e
      | .ok rest => .ok (Board.get_square r c :: rest)

/-- Embeds `GameRules._get_path_squares` (src/core/game_rule.py lines
356-383). -/
def GameRules.get_path_squares (m : Move) : Except PyErr (List (Option Coord)) :=
  let rowStep : Int := if m.startSquare.row = m.endSquare.row then 0
                       else (m.endSquare.row - m.startSquare.row).sign
  let colStep : Int := if m.startSquare.col = m.endSquare.col then 0
                       else (m.endSquare.col - m.startSquare.col).sign
  GameRules.pathWalk m.endSquare.row m.endSquare.col rowStep colStep 16
    (m.startSquare.row + rowStep) (m.startSquare.col + colStep)

/-- Embeds the `all(not square.is_occupied() for square in path)` scan of
`GameRules._is_path_clear` (src/core/game_rule.py line 245): lazily stops at
the first occupied square; a `None` entry raises `AttributeError`. -/
def GameRules.allNotOccupied (b : Board) : List (Option Coord) → Except PyErr Bool
  | [] => .ok true
  | none :: _ => .error (.attributeError ("NoneType object has no attribute is_occupied"))
  | some c :: rest => if b.isOccupiedAt c then .ok false else GameRules.allNotOccupied b rest

/-- Embeds `GameRules._is_path_clear` (src/core/game_rule.py lines 232-245):
knights are exempt, other pieces need every intermediate square free. -/
def GameRules.is_path_clear (b : Board) (m : Move) : Except PyErr Bool :=
  match m.movingPiece with
  | none => .error (.attributeError ("NoneType object has no attribute piece_type"))
  | some pid =>
    match b.getPiece pid with
    | none => .error (.attributeError ("dangling piece reference"))
    | some p =>
      if p.ptype = .knight then .ok true
      else
        match GameRules.get_path_squares m with
        | .error e => .error e
        | .ok path => GameRules.allNotOccupied b path

/-- Embeds `GameRules._is_valid_capture` (src/core/game_rule.py lines
247-256): `target and target.color != move.moving_piece.color`; an empty
target square yields a falsy result. -/
def GameRules.is_valid_capture (b : Board) (m : Move) : Except PyErr Bool :=
  match (b.squarePiece m.endSquare).bind b.getPiece with
  | none => .ok false
  | some target =>
    match m.movingPiece.bind b.getPiece with
    | none => .error (.attributeError ("NoneType object has no attribute color"))
    | some mover => .ok (target.color ≠ mover.color)

/-- Embeds `GameRules.is_valid_en_passant` (src/core/game_rule.py lines
152-190): the mover must be a pawn on row 3 (White) or row 4 (Black); the
square beside it must hold an enemy pawn whose own two-square advance was
the board's last move. -/
def GameRules.is_valid_en_passant (b : Board) (m : Move) : Except PyErr Bool :=
  match m.movingPiece.bind b.getPiece with
  | none => .ok false
  | some pawn =>
    if pawn.ptype ≠ .pawn then .ok false
    else if pawn.color = .white ∧ m.startSquare.row ≠ 3 then .ok false
    else if pawn.color = .black ∧ m.startSquare.row ≠ 4 then .ok false
    else
      match Board.get_square m.startSquare.row m.endSquare.col with
      | none => .error (.attributeError ("NoneType object has no attribute piece"))
      | some capturedSq =>
        match (b.squarePiece capturedSq).bind b.getPiece with
        | none => .ok false
        | some capturedPawn =>
          if capturedPawn.ptype ≠ .pawn ∨ capturedPawn.color = pawn.color then .ok false
          else
            match b.lastMove with
            | none => .ok false
            | some lm =>
              if lm.movingPiece ≠ some capturedPawn.id
                 ∨ (lm.startSquare.row - lm.endSquare.row).natAbs ≠ 2 then .ok false
              else .ok true

/-- Embeds `GameRules.is_valid_promotion` (src/core/game_rule.py lines
192-209): the mover is a pawn landing on row 0 (White) or row 7 (Black). -/
def GameRules.is_valid_promotion (b : Board) (m : Move) : Except PyErr Bool :=
  match m.movingPiece.bind b.getPiece with
  | none => .ok false
  | some pawn =>
    if pawn.ptype ≠ .pawn then .ok false
    else if pawn.color = .white then .ok (m.endSquare.row = 0)
    else .ok (m.endSquare.row = 7)

/-- Embeds `GameRules._get_moves_in_direction` (src/core/game_rule.py lines
258-293). The while-loop stops before constructing anything when the first
step is off-board or meets an own piece; in every other case its first
iteration executes `Move(start, end_square)` (line 283), which omits the
dataclass's required `moving_piece` argument and raises `TypeError`, so no
later iteration of the loop is reachable and the embedding needs no
recursion. -/
def GameRules.get_moves_in_direction (b : Board) (p : Piece) (dx dy : Int) : Except PyErr (List Move) :=
  match p.squareRef with
  | none => .error (.attributeError ("NoneType object has no attribute row"))
  | some start =>
    let r := start.row + dx
    let c := start.col + dy
    if Board.is_valid_position r c then
      match b.squarePiece ⟨r, c⟩ with
      | some pid =>
        match b.getPiece pid with
        | none => .error (.attributeError ("dangling piece reference"))
        | some q =>
          if q.color = p.color then .ok []
          else .error moveInitMissingPiece
      | none => .error moveInitMissingPiece
    else .ok []

/-- Embeds the en-passant loop of `GameRules._get_pawn_special_moves`
(src/core/game_rule.py lines 343-352): for each in-bounds adjacent column it
executes `Move(start, end_square, is_en_passant=True)` (line 350), which
omits `moving_piece` and raises `TypeError` before `is_valid_en_passant` is
consulted. -/
def GameRules.pawnEnPassantScan (start : Coord) : List Int → Except PyErr (List Move)
  | [] => .ok []
  | off :: rest =>
    if Board.is_valid_position start.row (start.col + off) then
      .error moveInitMissingPiece
    else GameRules.pawnEnPassantScan start rest

/-- Embeds `GameRules._get_pawn_special_moves` (src/core/game_rule.py lines
322-354): the double-push branch executes `Move(start, end_square)`
(line 340, `TypeError`) whenever the landing square is in bounds and empty;
otherwise control reaches the en-passant scan. -/
def GameRules.get_pawn_special_moves (b : Board) (pawn : Piece) : Except PyErr (List Move) :=
  match pawn.squareRef with
  | none => .error (.attributeError ("NoneType object has no attribute row"))
  | some start =>
    if ¬ pawn.hasMoved then
      let dir : Int := if pawn.color = .white then -2 else 2
      let endRow := start.row + dir
      if Board.is_valid_position endRow start.col then
        match b.squarePiece ⟨endRow, start.col⟩ with
        | some _ => GameRules.pawnEnPassantScan start [-1, 1]
        | none => .error moveInitMissingPiece
      else GameRules.pawnEnPassantScan start [-1, 1]
    else GameRules.pawnEnPassantScan start [-1, 1]

/-- Embeds `GameRules._get_castling_moves` (src/core/game_rule.py lines
295-320): unless the king has moved, line 310 executes
`Move(king.square, kingside_square, is_castle=True)`, which omits
`moving_piece` and raises `TypeError` — before `is_valid_castling` is ever
invoked, so the source's mutual recursion through the attack check is
unreachable. -/
def GameRules.get_castling_moves (king : Piece) : Except PyErr (List Move) :=
  if king.hasMoved then .ok []
  else
    match king.squareRef with
    | none => .error (.attributeError ("NoneType object has no attribute row"))
    | some _ => .error moveInitMissingPiece

/-- Direction loop of `GameRules.get_legal_moves` (src/core/game_rule.py
lines 88-101): sliding pieces extend with `_get_moves_in_direction`;
single-step and jump pieces execute `Move(start_square, end_square)`
(line 99, `TypeError`) for each in-bounds target — the `is_valid_move`
filter on line 100 is unreachable. -/
def GameRules.dirLoop (b : Board) (p : Piece) : List (Int × Int) → Except PyErr (List Move)
  | [] => .ok []
  | (dx, dy) :: rest =>
    let step : Except PyErr (List Move) :=
      if p.can_move_multiple_steps then GameRules.get_moves_in_direction b p dx dy
      else
        match p.squareRef with
        | none => .error (.attributeError ("NoneType object has no attribute row"))
        | some start =>
          if Board.is_valid_position (start.row + dx) (start.col + dy) then
            .error moveInitMissingPiece
          else .ok []
    match step with
    | .error e => .error e
    | .ok ms =>
      match GameRules.dirLoop b p rest with
      | .error e => .error e
      | .ok ms2 => .ok (ms ++ ms2)

/-- Embeds `GameRules.get_legal_moves` (src/core/game_rule.py lines 74-109).
Every path of the source that appends a move first constructs a `Move`
without the required `moving_piece` argument, so the embedded function
returns either an empty list or an error — never a non-empty list. -/
def GameRules.get_legal_moves (b : Board) (p : Piece) : Except PyErr (List Move) :=
  match GameRules.dirLoop b p p.get_move_directions with
  | .error e => .error e
  | .ok ms1 =>
    if p.ptype = .king then
      match GameRules.get_castling_moves p with
      | .error e => .error e
      | .ok ms2 => .ok (ms1 ++ ms2)
    else if p.ptype = .pawn then
      match GameRules.get_pawn_special_moves b p with
      | .error e => .error e
      | .ok ms2 => .ok (ms1 ++ ms2)
    else .ok ms1

/-- Iteration of `GameRules.is_square_attacked` over the attacker's pieces
(src/core/game_rule.py lines 220-226). Python iterates a set, but the
outcome is order-independent: `get_legal_moves` never returns a non-empty
list, so the scan either propagates the first raised error or exhausts the
set and returns `False`. -/
def GameRules.attackScan (b : Board) (sq : Option Coord) : List Piece → Except PyErr Bool
  | [] => .ok false
  | p :: rest =>
    match GameRules.get_legal_moves b p with
    | .error e => .error e
    | .ok ms =>
      if ms.any (fun mv => some mv.endSquare == sq) then .ok true
      else GameRules.attackScan b sq rest

/-- Embeds `GameRules.is_square_attacked` (src/core/game_rule.py lines
211-226); the square argument is an `Option` because callers can pass
`None` (`Square.__eq__` with a non-square is falsy). -/
def GameRules.is_square_attacked (b : Board) (sq : Option Coord) (byColor : PieceColor) : Except PyErr Bool :=
  GameRules.attackScan b sq (b.get_pieces byColor)

/-- Occupancy scan of the castling path (src/core/game_rule.py lines
136-138). -/
def GameRules.castleScanOccupied (b : Board) (row : Int) : List Int → Except PyErr Bool
  | [] => .ok false
  | c :: rest =>
    match Board.get_square row c with
    | none => .error (.attributeError ("NoneType object has no attribute is_occupied"))
    | some sq =>
      if b.isOccupiedAt sq then .ok true else GameRules.castleScanOccupied b row rest

/-- Attack scan of the castling path (src/core/game_rule.py lines
144-148). -/
def GameRules.castleScanAttacked (b : Board) (row : Int) (oppo : PieceColor) : List Int → Except PyErr Bool
  | [] => .ok false
  | c :: rest =>
    match GameRules.is_square_attacked b (Board.get_square row c) oppo with
    | .error e => .error e
    | .ok true => .ok true
    | .ok false => GameRules.castleScanAttacked b row oppo rest

/-- Embeds `GameRules.is_valid_castling` (src/core/game_rule.py lines
111-150). -/
def GameRules.is_valid_castling (b : Board) (m : Move) : Except PyErr Bool :=
  match m.movingPiece.bind b.getPiece with
  | none => .ok false
  | some king =>
    if king.ptype ≠ .king ∨ king.hasMoved then .ok false
    else
      match king.squareRef with
      | none => .error (.attributeError ("NoneType object has no attribute row"))
      | some ksq =>
        let row := ksq.row
        let isKingside := m.endSquare.col > m.startSquare.col
        let rookCol : Int := if isKingside then 7 else 0
        let pathCols : List Int := if isKingside then [5, 6] else [1, 2, 3]
        match Board.get_square row rookCol with
        | none => .error (.attributeError ("NoneType object has no attribute piece"))
        | some rsq =>
          match (b.squarePiece rsq).bind b.getPiece with
          | none => .ok false
          | some rook =>
            if rook.ptype ≠ .rook ∨ rook.hasMoved then .ok false
            else
              match GameRules.castleScanOccupied b row pathCols with
              | .error e => .error e
              | .ok true => .ok false
              | .ok false =>
                match GameRules.is_square_attacked b (some ksq) king.color.opposite with
                | .error e => .error e
                | .ok true => .ok false
                | .ok false =>
                  match GameRules.castleScanAttacked b row king.color.opposite pathCols with
                  | .error e => .error e
                  | .ok true => .ok false
                  | .ok false => .ok true

/-- Embeds `GameRules.is_valid_move` (src/core/game_rule.py lines 38-72):
bounds of both squares, presence of a moving piece, clear path, then the
special-move dispatch or the capture check. -/
def GameRules.is_valid_move (b : Board) (m : Move) : Except PyErr Bool :=
  if ¬ (GameRules.is_valid_position m.startSquare ∧ GameRules.is_valid_position m.endSquare) then
    .ok false
  else if m.movingPiece = none then .ok false
  else
    match GameRules.is_path_clear b m with
    | .error e => .error e
    | .ok false => .ok false
    | .ok true =>
      if m.isCastle then GameRules.is_valid_castling b m
      else if m.isEnPassant then GameRules.is_valid_en_passant b m
      else if m.isPromotion then GameRules.is_valid_promotion b m
      else if m.is_capture then GameRules.is_valid_capture b m
      else .ok true

/-- Embeds the comparisons `move.moving_piece.piece_type == "PAWN"`
(src/core/game_state.py lines 117 and 156): `piece_type` is a `PieceType`
enum member and a Python enum member never equals a string, so the
comparison is always `False` — the fifty-move counter is consequently never
reset on a pawn move. -/
def pieceTypeEqStr (_t : PieceType) (_s : String) : Bool := false

/-- Embeds the membership test `piece.piece_type in {"BISHOP", "KNIGHT"}`
(src/core/game_state.py line 274): a `PieceType` enum member never equals a
string, so the test is always `False`. -/
def pieceTypeInStrSet (_t : PieceType) (_s : List String) : Bool := false

/-- Replaces one piece object in the arena by id. -/
def Board.mapPiece (b : Board) (pid : Nat) (f : Piece → Piece) : Board :=
  { b with pieces := b.pieces.map (fun q => if q.id == pid then f q else q) }

/-- Modelled from the spec: `Board.get_king` is called by
`GameState._is_check` (src/core/game_state.py line 215) and by the AI's
king-safety scoring (src/ai/chess_ai.py lines 200-201) but is not defined on
`Board` in the sources; it returns the king piece of the given color, if
any. -/
def Board.get_king (b : Board) (c : PieceColor) : Option Piece :=
  (b.get_pieces c).find? (fun p => p.ptype == .king)

/-- Modelled from the spec: `Board.make_move` is called by
`GameState.make_move` (src/core/game_state.py line 113) but is not defined
on `Board` in the sources. Per §4.3 it applies the move to the board,
"capturing and recording any displaced piece" and returning it: the end
square's occupant (if any) is detached, removed from its live set and
appended to the captured list; the moving piece moves from start to end
(occupancy and back-reference updated, `has_moved` set); the board's last
move becomes this move. Castling, en-passant and promotion board side
effects are not modelled — no claim in this development depends on them. -/
def Board.make_move (b : Board) (m : Move) : Option Nat × Board :=
  let capturedId := b.squarePiece m.endSquare
  let b1 :=
    match capturedId with
    | some cid =>
      let capturedColor : Option PieceColor :=
        match b.getPiece cid with
        | some p => some p.color
        | none => none
      let x1 := (b.setOcc m.endSquare none).setPieceSquare cid none
      let x2 :=
        match capturedColor with
        | some cc => x1.removeFromColorSet cc cid
        | none => x1
      { x2 with capturedPieces := x2.capturedPieces ++ [cid] }
    | none => b
  let b2 :=
    match m.movingPiece with
    | some pid =>
      let x1 := (b1.setOcc m.startSquare none).setOcc m.endSquare (some pid)
      (x1.setPieceSquare pid (some m.endSquare)).mapPiece pid
        (fun p => { p with hasMoved := true })
    | none => b1
  (capturedId, { b2 with lastMove := some m })

/-- Modelled from the spec: `Board.undo_move` is called by
`GameState.undo_last_move` (src/core/game_state.py line 148) but is not
defined on `Board` in the sources. Per §4.3 it reverts the board and
restores any captured piece: the moving piece returns to the start square
and the captured piece (if any) is re-attached to the end square, re-added
to its live set and removed from the captured list. Restoring `has_moved`
and the board's previous last move is not modelled — the spec does not
specify them and no claim here depends on them. -/
def Board.undo_move (b : Board) (m : Move) : Board :=
  let b1 :=
    match m.movingPiece with
    | some pid =>
      let x1 := (b.setOcc m.endSquare none).setOcc m.startSquare (some pid)
      x1.setPieceSquare pid (some m.startSquare)
    | none => b
  let b2 :=
    match m.capturedPiece with
    | some cid =>
      let capturedColor : Option PieceColor :=
        match b1.getPiece cid with
        | some p => some p.color
        | none => none
      let x1 := (b1.setOcc m.endSquare (some cid)).setPieceSquare cid (some m.endSquare)
      let x2 :=
        match capturedColor with
        | some cc => x1.addToColorSet cc cid
        | none => x1
      { x2 with capturedPieces := x2.capturedPieces.filter (fun q => !(q == cid)) }
    | none => b1
  { b2 with lastMove := none }

/-- Embeds the `GameStatus` enum (src/core/game_state.py lines 17-23). -/
inductive GameStatus
  | active
  | check
  | checkmate
  | stalemate
  | draw
deriving DecidableEq

/-- Embeds the `GamePhase` enum (src/core/game_state.py lines 11-15). -/
inductive GamePhase
  | opening
  | middlegame
  | endgame
deriving DecidableEq

/-- Embeds the `GameState` object (src/core/game_state.py lines 46-69):
board, current player, status, phase, move/captured/position histories,
fifty-move counter, moves played and the last move. -/
structure GameState where
  board : Board
  currentPlayer : PieceColor
  status : GameStatus
  phase : GamePhase
  moveHistory : List Move
  capturedPieces : List Nat
  positionHistory : List String
  fiftyMoveCounter : Int
  movesPlayed : Int
  lastMove : Option Move
deriving DecidableEq

/-- Embeds `GameState.is_game_over` (src/core/game_state.py lines 86-93). -/
def GameState.is_game_over (s : GameState) : Bool :=
  match s.status with
  | .checkmate | .stalemate | .draw => true
  | _ => false

/-- Embeds `GameState._is_check` (src/core/game_state.py lines 209-219):
`king and is_square_attacked(king.square, opponent)`; with no king the
Python expression is a falsy `None`. -/
def GameState.is_check (s : GameState) : Except PyErr Bool :=
  match s.board.get_king s.currentPlayer with
  | none => .ok false
  | some king => GameRules.is_square_attacked s.board king.squareRef s.currentPlayer.opposite

/-- Scan of `GameState._has_legal_moves` (src/core/game_state.py line 238):
`any(self._rules.get_legal_moves(piece) for piece in pieces)`, evaluated
lazily piece by piece. -/
def GameState.hasLegalMovesScan (b : Board) : List Piece → Except PyErr Bool
  | [] => .ok false
  | p :: rest =>
    match GameRules.get_legal_moves b p with
    | .error e => .error e
    | .ok [] => GameState.hasLegalMovesScan b rest
    | .ok (_ :: _) => .ok true

/-- Embeds `GameState._has_legal_moves` (src/core/game_state.py lines
231-238). -/
def GameState.has_legal_moves (s : GameState) : Except PyErr Bool :=
  GameState.hasLegalMovesScan s.board (s.board.get_pieces s.currentPlayer)

/-- Embeds `GameState._is_checkmate` (src/core/game_state.py lines 191-198);
the `and` short-circuits, so `_has_legal_moves` only runs when in check. -/
def GameState.is_checkmate (s : GameState) : Except PyErr Bool :=
  match s.is_check with
  | .error e => .error e
  | .ok false => .ok false
  | .ok true =>
    match s.has_legal_moves with
    | .error e => .error e
    | .ok h => .ok (!h)

/-- Embeds `GameState._is_stalemate` (src/core/game_state.py lines
200-207). -/
def GameState.is_stalemate (s : GameState) : Except PyErr Bool :=
  match s.is_check with
  | .error e => .error e
  | .ok true => .ok false
  | .ok false =>
    match s.has_legal_moves with
    | .error e => .error e
    | .ok h => .ok (!h)

/-- Embeds `GameState._is_fifty_move_draw` (src/core/game_state.py lines
240-246). -/
def GameState.is_fifty_move_draw (s : GameState) : Bool :=
  decide (50 ≤ s.fiftyMoveCounter)

/-- Embeds `GameState._is_threefold_repetition` (src/core/game_state.py
lines 248-255): counts the current board's serialization in
`_position_history` — which holds only the snapshots taken *before* each
move (line 110), never the current position itself. -/
def GameState.is_threefold_repetition (s : GameState) : Bool :=
  decide (3 ≤ s.positionHistory.count s.board.str)

/-- Embeds `GameState._is_insufficient_material` (src/core/game_state.py
lines 257-277); the king-plus-minor case tests
`piece.piece_type in {"BISHOP", "KNIGHT"}`, which is always `False`
(enum member vs string). -/
def GameState.is_insufficient_material (s : GameState) : Bool :=
  let w := s.board.get_pieces .white
  let bl := s.board.get_pieces .black
  if w.length = 1 ∧ bl.length = 1 then true
  else if (w.length = 2 ∧ bl.length = 1) ∨ (w.length = 1 ∧ bl.length = 2) then
    (w ++ bl).any (fun p => pieceTypeInStrSet p.ptype [("BISHOP"), ("KNIGHT")])
  else false

/-- Embeds `GameState._is_draw` (src/core/game_state.py lines 221-229). -/
def GameState.is_draw (s : GameState) : Bool :=
  s.is_fifty_move_draw || s.is_threefold_repetition || s.is_insufficient_material

/-- Embeds `GameState._update_game_status` (src/core/game_state.py lines
169-180): checkmate, then stalemate, then draw, then check, else active. -/
def GameState.update_game_status (s : GameState) : Except PyErr GameState :=
  match s.is_checkmate with
  | .error e => .error e
  | .ok true => .ok { s with status := .checkmate }
  | .ok false =>
    match s.is_stalemate with
    | .error e => .error e
    | .ok true => .ok { s with status := .stalemate }
    | .ok false =>
      if s.is_draw then .ok { s with status := .draw }
      else
        match s.is_check with
        | .error e => .error e
        | .ok true => .ok { s with status := .check }
        | .ok false => .ok { s with status := .active }

/-- Embeds `GameState._update_game_phase` (src/core/game_state.py lines
182-189). -/
def GameState.update_game_phase (s : GameState) : GameState :=
  if s.movesPlayed < 20 then { s with phase := .opening }
  else if s.capturedPieces.length < 10 then { s with phase := .middlegame }
  else { s with phase := .endgame }

/-- Tail of `GameState.make_move` after the counters are updated
(src/core/game_state.py lines 122-133): history bookkeeping, status and
phase recomputation, then the player flip. -/
def GameState.makeMoveTail (s : GameState) (m : Move) : Except PyErr (Bool × GameState) :=
  let s4 := { s with
    movesPlayed := s.movesPlayed + 1,
    moveHistory := s.moveHistory ++ [m],
    lastMove := some m }
  match s4.update_game_status with
  | .error e => .error e
  | .ok s5 =>
    let s6 := s5.update_game_phase
    .ok (true, { s6 with currentPlayer := s6.currentPlayer.opposite })

/-- Embeds `GameState.make_move` (src/core/game_state.py lines 95-133):
reject (returning `False` with the state untouched) when the game is over
or `is_valid_move` fails; otherwise snapshot the position, apply the move
to the board, update the fifty-move counter (capture resets it; the pawn
test is the always-false string comparison, so otherwise it increments),
then run the bookkeeping tail. -/
def GameState.make_move (s : GameState) (m : Move) : Except PyErr (Bool × GameState) :=
  if s.is_game_over then .ok (false, s)
  else
    match GameRules.is_valid_move s.board m with
    | .error e => .error e
    | .ok false => .ok (false, s)
    | .ok true =>
      let s1 := { s with positionHistory := s.positionHistory ++ [s.board.str] }
      let (captured, b2) := s1.board.make_move m
      let s2 := { s1 with board := b2 }
      match captured with
      | some cid =>
        GameState.makeMoveTail
          { s2 with capturedPieces := s2.capturedPieces ++ [cid], fiftyMoveCounter := 0 } m
      | none =>
        match m.movingPiece.bind s2.board.getPiece with
        | none => .error (.attributeError ("NoneType object has no attribute piece_type"))
        | some mp =>
          if pieceTypeEqStr mp.ptype ("PAWN") then
            GameState.makeMoveTail { s2 with fiftyMoveCounter := 0 } m
          else
            GameState.makeMoveTail { s2 with fiftyMoveCounter := s2.fiftyMoveCounter + 1 } m

/-- Embeds `GameState.undo_last_move` (src/core/game_state.py lines
135-167): no-op on empty history; otherwise pop the histories, revert the
board, restore a captured piece, adjust the counters (the pawn test is the
always-false string comparison), restore the last move, flip the player and
recompute status and phase. -/
def GameState.undo_last_move (s : GameState) : Except PyErr (Option Move × GameState) :=
  match s.moveHistory.getLast? with
  | none => .ok (none, s)
  | some lastMv =>
    let hist := s.moveHistory.dropLast
    let s1 := { s with
      moveHistory := hist,
      positionHistory := s.positionHistory.dropLast,
      board := s.board.undo_move lastMv }
    let s2 :=
      if lastMv.capturedPiece.isSome then
        { s1 with capturedPieces := s1.capturedPieces.dropLast }
      else s1
    let s3 := { s2 with movesPlayed := s2.movesPlayed - 1 }
    let counterStep : Except PyErr GameState :=
      if lastMv.capturedPiece.isSome then .ok { s3 with fiftyMoveCounter := 0 }
      else
        match lastMv.movingPiece.bind s3.board.getPiece with
        | none => .error (.attributeError ("NoneType object has no attribute piece_type"))
        | some mp =>
          if pieceTypeEqStr mp.ptype ("PAWN") then .ok { s3 with fiftyMoveCounter := 0 }
          else .ok { s3 with fiftyMoveCounter := s3.fiftyMoveCounter - 1 }
    match counterStep with
    | .error e => .error e
    | .ok s4 =>
      let s5 := { s4 with lastMove := hist.getLast?, currentPlayer := s4.currentPlayer.opposite }
      match s5.update_game_status with
      | .error e => .error e
      | .ok s6 => .ok (some lastMv, s6.update_game_phase)

/-- Embeds `AIStats` (src/ai/chess_ai.py lines 24-35); the float fields are
modelled over the rationals. -/
structure AIStats where
  nodesEvaluated : Nat
  maxDepth : Nat
  avgDepth : Rat
  timeSpent : Nat
  bestMoves : List Move
  bestScore : Rat
  branchesPruned : Nat

/-- View of `GameState` as consumed by the AI layer.

Modelled from the spec: `ChessAI` reads `game_state.board`
(src/ai/chess_ai.py line 126) and `game_state.get_legal_moves(color?)`
(src/ai/chess_ai.py lines 189-190, src/ai/strategies/random.py line 29),
but `GameState` in src/core/game_state.py defines neither member; §6 lists
both in the external interface, so they are modelled as a board field and a
legal-move function, where `legalMoves none` is the no-argument call (the
current player's legal moves). -/
structure AIGameState where
  board : Board
  legalMoves : Option PieceColor → List Move

/-- Embeds the `piece_values` dict of `ChessAI._calculate_material_score`
(src/ai/chess_ai.py lines 153-160), keyed by `piece_type.name` (every name
is present, so the `.get` default is never used). -/
def ChessAI.pieceValue : PieceType → Rat
  | .pawn => 1
  | .knight => 3
  | .bishop => 3
  | .rook => 5
  | .queen => 9
  | .king => 0

/-- Embeds `ChessAI._calculate_material_score` (src/ai/chess_ai.py lines
151-168): own material minus opponent material, relative to the configured
color. -/
def ChessAI.calculate_material_score (b : Board) (aiColor : PieceColor) : Rat :=
  ((b.get_pieces aiColor).map (fun p => ChessAI.pieceValue p.ptype)).sum
    - ((b.get_pieces aiColor.opposite).map (fun p => ChessAI.pieceValue p.ptype)).sum

/-- Embeds `ChessAI._get_piece_square_tables` (src/ai/chess_ai.py lines
232-265) as entry lists. -/
def ChessAI.tableEntries : PieceType → List (Int × Int × Rat)
  | .pawn => [(1, 3, 1/10), (1, 4, 1/10), (2, 3, 2/10), (2, 4, 2/10), (3, 3, 3/10), (3, 4, 3/10)]
  | .knight => [(2, 2, 2/10), (2, 5, 2/10), (5, 2, 2/10), (5, 5, 2/10)]
  | .bishop => [(2, 2, 2/10), (2, 5, 2/10), (5, 2, 2/10), (5, 5, 2/10)]
  | .rook => [(0, 3, 1/10), (0, 4, 1/10), (7, 3, 1/10), (7, 4, 1/10)]
  | .queen => [(1, 3, 1/10), (1, 4, 1/10), (2, 3, 2/10), (2, 4, 2/10)]
  | .king => []

/-- Lookup `table.get((row, col), 0.0)`: zero off the table, and a piece
type without a table (the king) scores zero everywhere. -/
def ChessAI.tableLookup (t : PieceType) (r c : Int) : Rat :=
  match (ChessAI.tableEntries t).find? (fun e => e.1 == r && e.2.1 == c) with
  | some e => e.2.2
  | none => 0

/-- Coordinates a live piece occupies. Every member of a live set carries
its square; Python would raise on a detached piece, which scores at the
off-table sentinel `(-1, -1)` here (value zero either way). -/
def ChessAI.pieceCoord (p : Piece) : Coord :=
  p.squareRef.getD ⟨-1, -1⟩

/-- Embeds `ChessAI._calculate_position_score` (src/ai/chess_ai.py lines
170-185): own pieces score at `(row, col)`, opponent pieces at the mirrored
`(7 - row, col)`. -/
def ChessAI.calculate_position_score (b : Board) (aiColor : PieceColor) : Rat :=
  ((b.get_pieces aiColor).map
      (fun p => ChessAI.tableLookup p.ptype (ChessAI.pieceCoord p).row (ChessAI.pieceCoord p).col)).sum
    - ((b.get_pieces aiColor.opposite).map
        (fun p => ChessAI.tableLookup p.ptype (7 - (ChessAI.pieceCoord p).row) (ChessAI.pieceCoord p).col)).sum

/-- Embeds `ChessAI._calculate_mobility_score` (src/ai/chess_ai.py lines
187-192): the *current player's* legal-move count minus the configured
color's opponent's count. -/
def ChessAI.calculate_mobility_score (gs : AIGameState) (aiColor : PieceColor) : Rat :=
  ((gs.legalMoves none).length : Rat) - ((gs.legalMoves (some aiColor.opposite)).length : Rat)

/-- Embeds `ChessAI._calculate_king_safety` (src/ai/chess_ai.py lines
194-218): with either king absent it returns zero (line 203); otherwise
line 207 reads `king.has_castled`, an attribute never defined or set
anywhere in the sources (the spec's open questions flag exactly this), so
Python raises `AttributeError`. -/
def ChessAI.calculate_king_safety (gs : AIGameState) (aiColor : PieceColor) : Except PyErr Rat :=
  match gs.board.get_king aiColor, gs.board.get_king aiColor.opposite with
  | some _, some _ => .error (.attributeError ("King object has no attribute has_castled"))
  | _, _ => .ok 0

/-- Embeds `ChessAI.evaluate_position` (src/ai/chess_ai.py lines 112-149):
raises `ValueError` when no color is configured; otherwise weights material
by 1.0, position by 0.1, mobility by 0.1 and king safety by 0.2, and
negates the total for a Black-configured AI. Float arithmetic is modelled
over the rationals. -/
def ChessAI.evaluate_position (aiColor : Option PieceColor) (gs : AIGameState) : Except PyErr Rat :=
  match aiColor with
  | none => .error (.valueError ("Player color not set"))
  | some c =>
    match ChessAI.calculate_king_safety gs c with
    | .error e => .error e
    | .ok ks =>
      let score := ChessAI.calculate_material_score gs.board c * 1
        + ChessAI.calculate_position_score gs.board c * (1/10)
        + ChessAI.calculate_mobility_score gs c * (1/10)
        + ks * (2/10)
      .ok (if c = .white then score else -score)

/-- Embeds `RandomStrategy.get_best_move` (src/ai/strategies/random.py
lines 18-39). The wall-clock reads (`self.get_current_time()`,
`self.get_time_spent()`) are Modelled from the spec — neither method is
defined in the sources; §5/§9 describe an implicit wall-clock sampled at
the start and end of a search — as the parameters `clockStart` and
`elapsed`. `random.choice` is modelled by selection at index
`seed % length`, which ranges over every choice the uniform sampler can
make. -/
def RandomStrategy.get_best_move (stats : AIStats) (gs : AIGameState)
    (clockStart elapsed seed : Nat) : Option Move × AIStats :=
  let _startTime := clockStart
  match gs.legalMoves none with
  | [] => (none, stats)
  | x :: xs =>
    let chosen := (x :: xs).get ⟨seed % (x :: xs).length, Nat.mod_lt _ (Nat.succ_pos _)⟩
    (some chosen,
      { stats with timeSpent := elapsed, nodesEvaluated := 1, bestMoves := [chosen] })

/-- Embeds `Pawn._create_move` (src/pieces/pawn.py lines 157-191): builds a
fully populated `Move` (running the `Move` constructor validation; for a
capture the captured piece is the end square's occupant) and, when
`can_be_en_passant` is set, flips the pawn's `_can_be_captured_en_passant`
flag as a side effect — this runs during *move generation*, not when a move
is played. -/
def Pawn.create_move (b : Board) (p : Piece) (endSq : Coord)
    (isCapture isPromotion isEnPassant : Bool) (promotionPieceType : Option PieceType)
    (canBeEnPassant : Bool) : Except PyErr (Move × Board) :=
  match p.squareRef with
  | none => .error (.attributeError ("NoneType start square"))
  | some startSq =>
    let captured := if isCapture then b.squarePiece endSq else none
    match Move.create b startSq endSq (some p.id) captured false isPromotion isEnPassant
        promotionPieceType with
    | .error e => .error e
    | .ok mv =>
      let b2 :=
        if canBeEnPassant then
          b.mapPiece p.id (fun q => { q with canBeCapturedEnPassant := true })
        else b
      .ok (mv, b2)

/-- Fan-out loop of `Pawn._get_promotion_moves` (src/pieces/pawn.py lines
116-124) over the four promotion piece types. -/
def Pawn.promotionFanOut (p : Piece) (endSq : Coord) (isCapture : Bool) :
    Board → List PieceType → Except PyErr (List Move × Board)
  | b, [] => .ok ([], b)
  | b, t :: ts =>
    match Pawn.create_move b p endSq isCapture true false (some t) false with
    | .error e => .error e
    | .ok (mv, b2) =>
      match Pawn.promotionFanOut p endSq isCapture b2 ts with
      | .error e => .error e
      | .ok (ms, b3) => .ok (mv :: ms, b3)

/-- Embeds `Pawn._get_promotion_moves` (src/pieces/pawn.py lines 105-127):
on the promotion row fan out to queen/rook/bishop/knight, otherwise one
plain move. -/
def Pawn.get_promotion_moves (b : Board) (p : Piece) (endSq : Coord) (isCapture : Bool) :
    Except PyErr (List Move × Board) :=
  let promotionRow : Int := if p.color = .white then 0 else 7
  if endSq.row = promotionRow then
    Pawn.promotionFanOut p endSq isCapture b [.queen, .rook, .bishop, .knight]
  else
    match Pawn.create_move b p endSq isCapture false false none false with
    | .error e => .error e
    | .ok (mv, b2) => .ok ([mv], b2)

/-- Capture loop of `Pawn.get_legal_moves` (src/pieces/pawn.py lines
92-98) over the two diagonal columns. -/
def Pawn.captureScan (p : Piece) (nextRow col : Int) :
    Board → List Int → Except PyErr (List Move × Board)
  | b, [] => .ok ([], b)
  | b, off :: rest =>
    let step : Except PyErr (List Move × Board) :=
      let capCol := col + off
      if (0 ≤ nextRow ∧ nextRow < 8) ∧ (0 ≤ capCol ∧ capCol < 8) then
        let target : Coord := ⟨nextRow, capCol⟩
        let hasEnemy :=
          match (b.squarePiece target).bind b.getPiece with
          | some q => decide (q.color ≠ p.color)
          | none => false
        if hasEnemy then Pawn.get_promotion_moves b p target true
        else .ok ([], b)
      else .ok ([], b)
    match step with
    | .error e => .error e
    | .ok (ms, b2) =>
      match Pawn.captureScan p nextRow col b2 rest with
      | .error e => .error e
      | .ok (ms2, b3) => .ok (ms ++ ms2, b3)

/-- Embeds `Pawn._get_en_passant_moves` (src/pieces/pawn.py lines 129-155):
from row 3 (White) / row 4 (Black), an adjacent enemy pawn whose
`can_be_captured_en_passant` flag is set yields an en-passant capture move
(whose landing square is empty, so the move records no captured piece). -/
def Pawn.enPassantScan (p : Piece) (row col dir : Int) :
    Board → List Int → Except PyErr (List Move × Board)
  | b, [] => .ok ([], b)
  | b, off :: rest =>
    let step : Except PyErr (List Move × Board) :=
      if 0 ≤ col + off ∧ col + off < 8 then
        match (b.squarePiece ⟨row, col + off⟩).bind b.getPiece with
        | some adj =>
          if adj.ptype = .pawn ∧ adj.color ≠ p.color ∧ adj.canBeCapturedEnPassant then
            match Board.get_square (row + dir) (col + off) with
            | none => .error (.attributeError ("NoneType target square"))
            | some target =>
              match Pawn.create_move b p target true false true none false with
              | .error e => .error e
              | .ok (mv, b2) => .ok ([mv], b2)
          else .ok ([], b)
        | none => .ok ([], b)
      else .ok ([], b)
    match step with
    | .error e => .error e
    | .ok (ms, b2) =>
      match Pawn.enPassantScan p row col dir b2 rest with
      | .error e => .error e
      | .ok (ms2, b3) => .ok (ms ++ ms2, b3)

/-- Embeds `Pawn._get_en_passant_moves` entry point (src/pieces/pawn.py
lines 137-155). -/
def Pawn.get_en_passant_moves (b : Board) (p : Piece) (row col dir : Int) :
    Except PyErr (List Move × Board) :=
  if row = (if p.color = .white then (3 : Int) else 4) then
    Pawn.enPassantScan p row col dir b [-1, 1]
  else .ok ([], b)

/-- Embeds `Pawn.get_legal_moves` (src/pieces/pawn.py lines 68-103):
forward one (with promotion fan-out), the double push from the start row
(whose `_create_move` call sets the pawn's en-passant flag), the diagonal
captures, then the en-passant captures, in source order. -/
def Pawn.get_legal_moves (b0 : Board) (p : Piece) : Except PyErr (List Move × Board) :=
  match p.squareRef with
  | none => .error (.attributeError ("NoneType object has no attribute row"))
  | some sq =>
    let currentRow := sq.row
    let currentCol := sq.col
    let dir : Int := if p.color = .white then -1 else 1
    let startRow : Int := if p.color = .white then 6 else 1
    let nextRow := currentRow + dir
    let forwardStep : Except PyErr (List Move × Board) :=
      if 0 ≤ nextRow ∧ nextRow < 8 then
        match Board.get_square nextRow currentCol with
        | none => .error (.attributeError ("NoneType object has no attribute is_occupied"))
        | some front =>
          if ¬ b0.isOccupiedAt front then
            match Pawn.get_promotion_moves b0 p front false with
            | .error e => .error e
            | .ok (ms1, b1) =>
              if ¬ p.hasMoved ∧ currentRow = startRow then
                match Board.get_square (nextRow + dir) currentCol with
                | none => .error (.attributeError ("NoneType object has no attribute is_occupied"))
                | some twoAhead =>
                  if ¬ b1.isOccupiedAt twoAhead then
                    match Pawn.create_move b1 p twoAhead false false false none true with
                    | .error e => .error e
                    | .ok (mv, b2) => .ok (ms1 ++ [mv], b2)
                  else .ok (ms1, b1)
              else .ok (ms1, b1)
          else .ok ([], b0)
      else .ok ([], b0)
    match forwardStep with
    | .error e => .error e
    | .ok (msF, bF) =>
      match Pawn.captureScan p nextRow currentCol bF [-1, 1] with
      | .error e => .error e
      | .ok (msC, bC) =>
        match Pawn.get_en_passant_moves bC p currentRow currentCol dir with
        | .error e => .error e
        | .ok (msE, bE) => .ok (msF ++ msC ++ msE, bE)

/-! Concrete fixtures used by the claim theorems. -/

/-- White king on e1 (row 7, col 4), unmoved. -/
def wkA : Piece := ⟨0, .white, .king, false, false, some ⟨7, 4⟩⟩

/-- Black king on e8 (row 0, col 4), unmoved. -/
def bkA : Piece := ⟨1, .black, .king, false, false, some ⟨0, 4⟩⟩

/-- White rook on h1 (row 7, col 7), unmoved. -/
def wrA : Piece := ⟨2, .white, .rook, false, false, some ⟨7, 7⟩⟩

/-- Board with the white king on e1, the black king on e8 and a white rook
on h1. -/
def boardA : Board := ⟨[(⟨7, 4⟩, 0), (⟨0, 4⟩, 1), (⟨7, 7⟩, 2)], [wkA, bkA, wrA], [0, 2], [1], [], none⟩

/-- Fresh active game state on `boardA`, White to move. -/
def stateA : GameState := ⟨boardA, .white, .active, .opening, [], [], [], 0, 0, none⟩

/-- Rook h1 to h4: a plain, non-capturing rook move with a clear path. -/
def mvA : Move := ⟨⟨7, 7⟩, ⟨4, 7⟩, some 2, none, false, false, false, none⟩

/-- C1: the claim says that after a successful `make_move` on a legal move,
`undo_last_move` restores board layout, current player, fifty-move counter
and status. On the code, `make_move` never completes on such a position:
the status recomputation calls `GameRules.get_legal_moves`, whose `Move(...)`
constructions omit the required `moving_piece` argument and raise
`TypeError`. On the concrete position below the move passes `is_valid_move`,
yet `make_move` raises instead of returning, so the make/undo round trip can
never begin. -/
theorem c1_make_move_raises_before_undo_can_restore :
    GameRules.is_valid_move stateA.board mvA = .ok true ∧
    stateA.make_move mvA = .error moveInitMissingPiece := by
  constructor <;> rfl

/-- White rook alone on a1 (row 7, col 0). -/
def wrC2 : Piece := ⟨4, .white, .rook, false, false, some ⟨7, 0⟩⟩

/-- Board holding only the white rook on a1. -/
def boardC2 : Board := ⟨[(⟨7, 0⟩, 4)], [wrC2], [4], [], [], none⟩

/-- C2: the claim says every move returned by `GameRules.get_legal_moves`
satisfies `is_valid_move`. The generator can never return a move: every
`Move(...)` construction in src/core/game_rule.py omits the required
`moving_piece` argument, so for a lone white rook on a1 the generator raises
`TypeError` at its first candidate square instead of producing a move
list. -/
theorem c2_get_legal_moves_raises :
    GameRules.get_legal_moves boardC2 wrC2 = .error moveInitMissingPiece := by
  rfl

/-- Board with only the two kings, on e1 and e8. -/
def boardC3 : Board := ⟨[(⟨7, 4⟩, 0), (⟨0, 4⟩, 1)], [wkA, bkA], [0], [1], [], none⟩

/-- Game state in which the current position (kings on e1/e8) is occurring
for the third time: `_position_history` holds exactly the two snapshots
taken when the position was previously left, because `make_move` snapshots
the board *before* each move (src/core/game_state.py line 110) and never
records the position just reached. -/
def stateC3 : GameState := ⟨boardC3, .white, .active, .opening, [], [], [boardC3.str, boardC3.str], 0, 4, none⟩

/-- White king e1 to d1: a plain legal king move. -/
def mvC3 : Move := ⟨⟨7, 4⟩, ⟨7, 3⟩, some 0, none, false, false, false, none⟩

/-- C3: the claim says the recomputed status is Draw by repetition exactly
on the third occurrence of a position. On the third occurrence the history
holds only the two pre-move snapshots, so `_is_threefold_repetition`
(count ≥ 3) is still false — it could not fire before the fourth
occurrence — and `make_move` cannot reach the draw check at all: it raises
`TypeError` during the status recomputation. -/
theorem c3_threefold_not_detected_on_third_occurrence :
    stateC3.positionHistory.count stateC3.board.str = 2 ∧
    stateC3.is_threefold_repetition = false ∧
    stateC3.make_move mvC3 = .error moveInitMissingPiece := by
  refine ⟨rfl, rfl, rfl⟩

/-- White pawn on e2 (row 6, col 4), unmoved, en-passant flag clear. -/
def wpC5 : Piece := ⟨5, .white, .pawn, false, false, some ⟨6, 4⟩⟩

/-- Board holding only the white pawn on e2. -/
def boardC5 : Board := ⟨[(⟨6, 4⟩, 5)], [wpC5], [5], [], [], none⟩

/-- En-passant eligibility flag of a piece, read back from a board. -/
def pawnFlag (b : Board) (pid : Nat) : Option Bool :=
  (b.getPiece pid).map (fun p => p.canBeCapturedEnPassant)

/-- C5: the claim says the en-passant eligibility is set when the pawn's
two-square advance is *played* and cleared after one opponent turn. In the
code `Pawn._create_move` sets the flag as a side effect of *generating* the
double-push move — before any move is played — and no code path ever clears
it: merely enumerating the fresh e2-pawn's moves (two of them: e3 and the
double push e4) leaves the pawn permanently flagged. -/
theorem c5_en_passant_flag_set_by_generation_never_cleared :
    pawnFlag boardC5 5 = some false ∧
    (Pawn.get_legal_moves boardC5 wpC5).map (fun r => (r.1.length, pawnFlag r.2 5)) =
      .ok (2, some true) := by
  constructor <;> rfl

/-- Black rook on e8 (row 0, col 4), attacking the white king on e1 along
the open e-file. -/
def brC6 : Piece := ⟨3, .black, .rook, false, false, some ⟨0, 4⟩⟩

/-- Board with the white king on e1 attacked by a black rook on e8. -/
def boardC6 : Board := ⟨[(⟨7, 4⟩, 0), (⟨0, 4⟩, 3)], [wkA, brC6], [0], [3], [], none⟩

/-- Active game state on `boardC6`, White (whose king is attacked) to
move. -/
def stateC6 : GameState := ⟨boardC6, .white, .active, .opening, [], [], [], 0, 0, none⟩

/-- C6: the claim says the recomputation ends in status Check whenever the
current player's king is attacked. On a position with the white king on e1
attacked by a black rook on e8, both the check predicate and the whole
status recomputation raise `TypeError` instead of producing a status:
attack detection runs the move generator, whose `Move(...)` calls omit the
required `moving_piece` argument. -/
theorem c6_status_recomputation_raises :
    stateC6.is_check = .error moveInitMissingPiece ∧
    stateC6.update_game_status = .error moveInitMissingPiece := by
  constructor <;> rfl

/-- C4: `make_move` returns `False` — with the entire state unchanged, since
both early returns precede any mutation — when the game is already terminal,
and likewise when `is_valid_move` rejects the move. -/
theorem c4_make_move_rejects_without_mutation (s : GameState) (m : Move) :
    (s.is_game_over = true → s.make_move m = .ok (false, s)) ∧
    (GameRules.is_valid_move s.board m = .ok false → s.make_move m = .ok (false, s)) := by
  constructor
  · intro h
    simp [GameState.make_move, h]
  · intro h
    by_cases hg : s.is_game_over = true
    · simp [GameState.make_move, hg]
    · simp [GameState.make_move, hg, h]

/-- Checkmated copy of `stateA` (a terminal state). -/
def stateC4w : GameState := { stateA with status := .checkmate }

/-- Rook move whose end square (row 8) lies off the board, so
`is_valid_move` rejects it. -/
def mvC4w : Move := ⟨⟨7, 7⟩, ⟨8, 7⟩, some 2, none, false, false, false, none⟩

/-- Witness for C4: a checkmated copy of `stateA` rejects a move without
mutation, and the active `stateA` rejects a move whose end square lies off
the board. -/
theorem c4_witness :
    stateC4w.is_game_over = true ∧ stateC4w.make_move mvC4w = .ok (false, stateC4w) ∧
    GameRules.is_valid_move stateA.board mvC4w = .ok false ∧
    stateA.make_move mvC4w = .ok (false, stateA) :=
  ⟨rfl, (c4_make_move_rejects_without_mutation stateC4w mvC4w).1 rfl,
   rfl, (c4_make_move_rejects_without_mutation stateA mvC4w).2 rfl⟩

/-- C7: `Move` construction raises exactly when the moving piece is not the
start square's current occupant, or start equals end, or the promotion flag
is set without a promotion piece type; and a move violating none of these is
stored exactly as given (no silent normalization). -/
theorem c7_move_validation_exact (b : Board) (startSq endSq : Coord) (mp cap : Option Nat)
    (cast promo enp : Bool) (pt : Option PieceType) :
    ((∃ e, Move.create b startSq endSq mp cap cast promo enp pt = .error e) ↔
      (b.squarePiece startSq ≠ mp ∨ startSq = endSq ∨ (promo = true ∧ pt = none))) ∧
    (∀ mv, Move.create b startSq endSq mp cap cast promo enp pt = .ok mv →
      mv = ⟨startSq, endSq, mp, cap, cast, promo, enp, pt⟩) := by
  unfold Move.create
  split_ifs with h1 h2 h3
  · exact ⟨⟨fun _ => Or.inl (Ne.symm h1), fun _ => ⟨_, rfl⟩⟩, fun mv h => nomatch h⟩
  · exact ⟨⟨fun _ => Or.inr (Or.inl h2), fun _ => ⟨_, rfl⟩⟩, fun mv h => nomatch h⟩
  · refine ⟨⟨fun _ => Or.inr (Or.inr ?_), fun _ => ⟨_, rfl⟩⟩, fun mv h => nomatch h⟩
    simpa using h3
  · constructor
    · constructor
      · rintro ⟨e, he⟩
        exact nomatch he
      · rintro (hc | hc | hc)
        · exact absurd (Ne.symm hc) h1
        · exact absurd hc h2
        · exact absurd (by simpa using hc) h3
    · intro mv h
      injection h with h2
      exact h2.symm

/-- Witness for C7: with the start square equal to the end square the
constructor raises (forward direction of the iff), and a well-formed pawn
push is stored exactly as given. -/
theorem c7_witness :
    (boardC5.squarePiece ⟨6, 4⟩ ≠ some 5 ∨ (⟨6, 4⟩ : Coord) = ⟨6, 4⟩ ∨
      (false = true ∧ (none : Option PieceType) = none)) ∧
    (⟨⟨6, 4⟩, ⟨5, 4⟩, some 5, none, false, false, false, none⟩ : Move) =
      ⟨⟨6, 4⟩, ⟨5, 4⟩, some 5, none, false, false, false, none⟩ :=
  ⟨(c7_move_validation_exact boardC5 ⟨6, 4⟩ ⟨6, 4⟩ (some 5) none false false false none).1.mp
      ⟨_, rfl⟩,
   (c7_move_validation_exact boardC5 ⟨6, 4⟩ ⟨5, 4⟩ (some 5) none false false false none).2 _ rfl⟩

/-- C8: the random strategy returns `none` (without raising) on an empty
legal-move list, and on a singleton list it returns that single move — for
every possible draw of the uniform sampler — and records
`nodes_evaluated = 1`. -/
theorem c8_random_strategy_empty_and_singleton (stats : AIStats) (gs : AIGameState)
    (cs el seed : Nat) :
    (gs.legalMoves none = [] → (RandomStrategy.get_best_move stats gs cs el seed).1 = none) ∧
    (∀ m, gs.legalMoves none = [m] →
      (RandomStrategy.get_best_move stats gs cs el seed).1 = some m ∧
      (RandomStrategy.get_best_move stats gs cs el seed).2.nodesEvaluated = 1) := by
  constructor
  · intro h
    simp [RandomStrategy.get_best_move, h]
  · intro m h
    simp [RandomStrategy.get_best_move, h, Nat.mod_one]

/-- Empty statistics record, as `AIStats.__init__` produces. -/
def statsW : AIStats := ⟨0, 0, 0, 0, [], 0, 0⟩

/-- AI view with no legal moves. -/
def gsEmptyC8 : AIGameState := ⟨boardC2, fun _ => []⟩

/-- AI view with exactly one legal move. -/
def gsOneC8 : AIGameState := ⟨boardC2, fun _ => [mvC3]⟩

/-- Witness for C8 at a concrete empty and a concrete singleton move
list. -/
theorem c8_witness :
    (RandomStrategy.get_best_move statsW gsEmptyC8 0 0 7).1 = none ∧
    (RandomStrategy.get_best_move statsW gsOneC8 0 0 7).1 = some mvC3 ∧
    (RandomStrategy.get_best_move statsW gsOneC8 0 0 7).2.nodesEvaluated = 1 :=
  ⟨(c8_random_strategy_empty_and_singleton statsW gsEmptyC8 0 0 7).1 rfl,
   ((c8_random_strategy_empty_and_singleton statsW gsOneC8 0 0 7).2 mvC3 rfl).1,
   ((c8_random_strategy_empty_and_singleton statsW gsOneC8 0 0 7).2 mvC3 rfl).2⟩

/-- White pawn on d7 (row 1, col 3) — a square with a positive piece-square
table entry for White. -/
def wpC9 : Piece := ⟨6, .white, .pawn, false, false, some ⟨1, 3⟩⟩

/-- Board holding only the white pawn on d7. -/
def boardC9 : Board := ⟨[(⟨1, 3⟩, 6)], [wpC9], [6], [], [], none⟩

/-- AI view of `boardC9` with no legal moves on either side (the kingless
board also keeps the king-safety term at zero, the only configuration in
which `evaluate_position` terminates instead of raising on the undefined
`King.has_castled`). -/
def gsC9 : AIGameState := ⟨boardC9, fun _ => []⟩

/-- C9 counterexample: the full evaluator is not antisymmetric in the
configured color. On a board holding a single white pawn on d7, the
White-configured score is `1 + 0.1·0.1 = 101/100` (material plus its
piece-square bonus) while the Black-configured score is `-(-1) = 1`: the
piece-square term mirrors the opponent's rows, so the bonus vanishes from
Black's viewpoint and `evaluate(White) ≠ -evaluate(Black)`. -/
theorem c9_evaluate_not_antisymmetric :
    ChessAI.evaluate_position (some .white) gsC9 = .ok (101 / 100) ∧
    ChessAI.evaluate_position (some .black) gsC9 = .ok 1 ∧
    (101 / 100 : Rat) ≠ -(1 : Rat) := by
  refine ⟨?_, ?_, by norm_num⟩ <;>
      simp [ChessAI.evaluate_position, ChessAI.calculate_king_safety, gsC9, boardC9, wpC9,
        Board.get_king, Board.get_pieces, Board.colorIds, Board.getPiece, PieceColor.opposite,
        ChessAI.calculate_material_score, ChessAI.calculate_position_score,
        ChessAI.calculate_mobility_score, ChessAI.pieceValue, ChessAI.tableLookup,
        ChessAI.tableEntries, ChessAI.pieceCoord, List.find?]
  norm_num

/-- C9 amended: the antisymmetry does hold for the material term of the
shared evaluator — `_calculate_material_score` with the AI color set to
White is the negation of the same score with the AI color set to Black, on
every board. -/
theorem c9_material_score_antisymmetric (b : Board) :
    ChessAI.calculate_material_score b .white = - ChessAI.calculate_material_score b .black := by
  simp [ChessAI.calculate_material_score, PieceColor.opposite]

/-- Replacing the piece with matching id makes it the piece found by id. -/
theorem findReplaceEq (P : Piece) : ∀ l : List Piece,
    l.any (fun q => q.id == P.id) = true →
    (l.map (fun q => if q.id == P.id then P else q)).find? (fun q => q.id == P.id) = some P := by
  intro l
  induction l with
  | nil => intro h; simp at h
  | cons q l ih =>
    intro h
    by_cases hq : (q.id == P.id) = true
    · simp only [List.map_cons, if_pos hq]
      exact List.find?_cons_of_pos _ (by simp)
    · have h2 : l.any (fun q => q.id == P.id) = true := by
        simpa [List.any_cons, hq] using h
      simp only [List.map_cons, if_neg hq]
      rw [@List.find?_cons_of_neg _ (fun r => r.id == P.id) q _ hq]
      exact ih h2

/-- Appending a fresh piece makes it the piece found by id. -/
theorem findAppendEq (P : Piece) : ∀ l : List Piece,
    l.any (fun q => q.id == P.id) = false →
    (l ++ [P]).find? (fun q => q.id == P.id) = some P := by
  intro l
  induction l with
  | nil =>
    intro _
    rw [List.nil_append]
    exact List.find?_cons_of_pos _ (by simp)
  | cons q l ih =>
    intro h
    have hq : (q.id == P.id) = false := by
      cases hqq : (q.id == P.id) <;> simp_all [List.any_cons]
    have h2 : l.any (fun q => q.id == P.id) = false := by
      simp_all [List.any_cons]
    rw [List.cons_append, @List.find?_cons_of_neg _ (fun r => r.id == P.id) q _ (by simp [hq])]
    exact ih h2

/-- After `setPiece`, the piece is found by its id. -/
theorem getPiece_setPiece (b : Board) (P : Piece) : (b.setPiece P).getPiece P.id = some P := by
  unfold Board.setPiece Board.getPiece
  by_cases h : b.pieces.any (fun q => q.id == P.id) = true
  · simp only [h, if_true]
    exact findReplaceEq P b.pieces h
  · rw [Bool.not_eq_true] at h
    simp only [h, Bool.false_eq_true, if_false]
    exact findAppendEq P b.pieces h

/-- After `setOcc`, the square holds the written occupant. -/
theorem squarePiece_setOcc_some (b : Board) (c : Coord) (pid : Nat) :
    (b.setOcc c (some pid)).squarePiece c = some pid := by
  simp [Board.setOcc, Board.squarePiece, List.find?]

/-- Boards with the same occupancy agree on `squarePiece`. -/
theorem squarePiece_congr (b2 b : Board) (h : b2.occ = b.occ) (c : Coord) :
    b2.squarePiece c = b.squarePiece c := by
  simp [Board.squarePiece, h]

/-- Boards with the same arena agree on `getPiece`. -/
theorem getPiece_congr (b2 b : Board) (h : b2.pieces = b.pieces) (pid : Nat) :
    b2.getPiece pid = b.getPiece pid := by
  simp [Board.getPiece, h]

/-- `setPiece` leaves the occupancy grid untouched. -/
theorem occ_setPiece (b : Board) (P : Piece) : (b.setPiece P).occ = b.occ := by
  unfold Board.setPiece
  split_ifs <;> rfl

/-- `addToColorSet` leaves the occupancy grid untouched. -/
theorem occ_addToColorSet (b : Board) (c : PieceColor) (pid : Nat) :
    (b.addToColorSet c pid).occ = b.occ := by
  unfold Board.addToColorSet
  cases c <;> split_ifs <;> rfl

/-- `addToColorSet` leaves the piece arena untouched. -/
theorem pieces_addToColorSet (b : Board) (c : PieceColor) (pid : Nat) :
    (b.addToColorSet c pid).pieces = b.pieces := by
  unfold Board.addToColorSet
  cases c <;> split_ifs <;> rfl

/-- After `addToColorSet`, the id belongs to that color's live set. -/
theorem mem_colorIds_addToColorSet (b : Board) (c : PieceColor) (pid : Nat) :
    pid ∈ (b.addToColorSet c pid).colorIds c := by
  cases c <;> simp only [Board.addToColorSet, Board.colorIds] <;> split_ifs with h <;>
    simp [h]

/-- C10: `place_piece` on an occupied square returns `False` and leaves the
board — occupant, back-references and both live sets — unchanged; on an
empty square it returns `True`, sets the square's occupant to the piece,
points the piece's `square` back-reference at the square, and adds the
piece to its color's live set. -/
theorem c10_place_piece_occupied_and_empty (b : Board) (p : Piece) (sq : Coord) :
    (b.isOccupiedAt sq = true → b.place_piece p sq = (false, b)) ∧
    (b.isOccupiedAt sq = false →
      (b.place_piece p sq).1 = true ∧
      (b.place_piece p sq).2.squarePiece sq = some p.id ∧
      (b.place_piece p sq).2.getPiece p.id = some { p with squareRef := some sq } ∧
      p.id ∈ (b.place_piece p sq).2.colorIds p.color) := by
  constructor
  · intro h
    simp [Board.place_piece, h]
  · intro h
    have hno : ¬ (b.isOccupiedAt sq = true) := by simp [h]
    have hred : b.place_piece p sq = (true,
        ((b.setOcc sq (some p.id)).setPiece { p with squareRef := some sq }).addToColorSet
          p.color p.id) := by
      unfold Board.place_piece
      rw [if_neg hno]
    rw [hred]
    refine ⟨rfl, ?_, ?_, ?_⟩
    · rw [squarePiece_congr _ _ (occ_addToColorSet _ _ _) sq,
          squarePiece_congr _ _ (occ_setPiece _ _) sq]
      exact squarePiece_setOcc_some b sq p.id
    · rw [getPiece_congr _ _ (pieces_addToColorSet _ _ _) p.id]
      exact getPiece_setPiece _ _
    · exact mem_colorIds_addToColorSet _ p.color p.id

/-- Empty board. -/
def bEmptyW : Board := ⟨[], [], [], [], [], none⟩

/-- Witness for C10: placing onto the occupied e2 of `boardC5` fails
unchanged; placing the pawn onto d5 of the empty board succeeds with the
occupancy, back-reference and live-set effects. -/
theorem c10_witness :
    boardC5.place_piece wkA ⟨6, 4⟩ = (false, boardC5) ∧
    (bEmptyW.place_piece wpC5 ⟨3, 3⟩).1 = true ∧
    (bEmptyW.place_piece wpC5 ⟨3, 3⟩).2.squarePiece ⟨3, 3⟩ = some wpC5.id ∧
    (bEmptyW.place_piece wpC5 ⟨3, 3⟩).2.getPiece wpC5.id =
      some { wpC5 with squareRef := some ⟨3, 3⟩ } ∧
    wpC5.id ∈ (bEmptyW.place_piece wpC5 ⟨3, 3⟩).2.colorIds wpC5.color :=
  ⟨(c10_place_piece_occupied_and_empty boardC5 wkA ⟨6, 4⟩).1 rfl,
   ((c10_place_piece_occupied_and_empty bEmptyW wpC5 ⟨3, 3⟩).2 rfl).1,
   ((c10_place_piece_occupied_and_empty bEmptyW wpC5 ⟨3, 3⟩).2 rfl).2.1,
   ((c10_place_piece_occupied_and_empty bEmptyW wpC5 ⟨3, 3⟩).2 rfl).2.2.1,
   ((c10_place_piece_occupied_and_empty bEmptyW wpC5 ⟨3, 3⟩).2 rfl).2.2.2⟩

end OopChess
